import Mathlib

set_option maxHeartbeats 1000000

/-!
Shallow embedding of the talking-pet backend (`main.py`):
the model registry and payload builder, the Replicate poll loop,
storage-key construction, the TTS length guard, the media muxer's
file lifecycle, and the prompt-only pipeline with its compensating
delete.  Collaborator HTTP calls are abstracted as environment
outcomes; all control flow is translated from the source.
-/

/-- Python values occurring in model payload dictionaries. -/
inductive Value where
  | vStr (s : String)
  | vInt (n : Int)
  | vBool (b : Bool)
  | vRat (q : Rat)
deriving DecidableEq

/-- A Python dict with string keys, as an ordered association list
(first occurrence of a key is authoritative; `dset` keeps it unique). -/
abbrev Dict := List (String × Value)

/-- Python dict assignment `d[k] = v`: overwrite in place when the key is
present, append otherwise. -/
def dset : Dict → String → Value → Dict
  | [], k, v => [(k, v)]
  | (k', v') :: rest, k, v =>
    if k' = k then (k, v) :: rest else (k', v') :: dset rest k v

/-- Python dict lookup `d.get(k)`. -/
def dget : Dict → String → Option Value
  | [], _ => none
  | (k', v') :: rest, k => if k' = k then some v' else dget rest k

/-- Python `d.setdefault(k, v)`. -/
def dsetdefault (d : Dict) (k : String) (v : Value) : Dict :=
  match dget d k with
  | some _ => d
  | none => dset d k v

instance {ε α : Type} [DecidableEq ε] [DecidableEq α] :
    DecidableEq (Except ε α) := fun x y =>
  match x, y with
  | .ok a, .ok b => decidable_of_iff (a = b) (by simp)
  | .ok _, .error _ => isFalse (by simp)
  | .error _, .ok _ => isFalse (by simp)
  | .error e, .error f => decidable_of_iff (e = f) (by simp)

/-- Python `HTTPException(status_code, detail)`. -/
structure HTTPError where
  status : Nat
  detail : String
deriving DecidableEq

/-- A Python exception: either an `HTTPException` or some other exception
(tagged by a description). -/
inductive PyErr where
  | http (e : HTTPError)
  | other (tag : String)
deriving DecidableEq

/-- One model's registry entry (`SUPPORTED_MODELS` values). -/
structure ModelConfig where
  name : String
  default_params : Dict
  param_mapping : List (String × String)
  supported_resolutions : Option (List String) := none
deriving DecidableEq

/-- Lookup in a string-keyed association list (used for `param_mapping`
and for the registry itself). -/
def alget {α : Type} : List (String × α) → String → Option α
  | [], _ => none
  | (k', v') :: rest, k => if k' = k then some v' else alget rest k

/-- The `SUPPORTED_MODELS` table from `main.py`, field for field. -/
def SUPPORTED_MODELS : List (String × ModelConfig) :=
  [("minimax/hailuo-02",
    { name := "Hailuo-02"
      default_params := [("prompt_optimizer", .vBool false)]
      param_mapping :=
        [("image_url", "first_frame_image"), ("prompt", "prompt"),
         ("seconds", "duration"), ("resolution", "resolution")]
      supported_resolutions := some ["512p", "768p", "1080p"] }),
   ("wan-video/wan-2.1",
    { name := "Wan v2.1"
      default_params := [("format", .vStr "wan2.1")]
      param_mapping :=
        [("image_url", "image"), ("prompt", "prompt"),
         ("seconds", "duration"), ("resolution", "resolution")]
      supported_resolutions := some ["768p", "1080p"] }),
   ("kwaivgi/kling-v2.1",
    { name := "Kling v2.1"
      default_params :=
        [("mode", .vStr "standard"), ("aspect_ratio", .vStr "1:1")]
      param_mapping :=
        [("image_url", "start_image"), ("prompt", "prompt"),
         ("seconds", "duration"), ("resolution", "aspect_ratio")]
      supported_resolutions := some ["720p", "1080p"] }),
   ("wan-video/wan-2.2-s2v",
    { name := "Wan v2.2"
      default_params :=
        [("guidance_scale", .vRat (15 / 2)), ("num_inference_steps", .vRat 25)]
      param_mapping :=
        [("image_url", "image"), ("prompt", "prompt"),
         ("seconds", "duration"), ("resolution", "resolution"),
         ("audio_url", "audio")] }),
   ("bytedance/seedance-1-lite",
    { name := "SeeDance-1 Lite"
      default_params :=
        [("guidance_scale", .vRat (15 / 2)), ("num_inference_steps", .vRat 20)]
      param_mapping :=
        [("image_url", "image"), ("prompt", "prompt"),
         ("seconds", "duration"), ("resolution", "resolution")]
      supported_resolutions := some ["480p", "720p", "1080p"] })]

def DEFAULT_MODEL : String := "wan-video/wan-2.1"

/-- Registry lookup `get_model_config`: HTTP 400 on an unknown id. -/
def get_model_config (model : String) : Except HTTPError ModelConfig :=
  match alget SUPPORTED_MODELS model with
  | some c => .ok c
  | none =>
    .error ⟨400,
      "Unsupported model '" ++ model ++ "'. Supported models: " ++
        String.intercalate ", " (SUPPORTED_MODELS.map Prod.fst)⟩

/-- The request body sent to Replicate: `{"input": {...}}`. -/
structure Payload where
  input : Dict
deriving DecidableEq

/-- Translation of `build_model_payload`, branch for branch from `main.py`.
`audio_url = none` models Python's `audio_url=None` default; the guard
`if "audio_url" in param_mapping and audio_url:` makes an empty string
behave like an absent audio URL. -/
def build_model_payload (model image_url prompt : String) (seconds : Int)
    (resolution : String) (audio_url : Option String) :
    Except HTTPError Payload :=
  match get_model_config model with
  | .error e => .error e
  | .ok config =>
    let param_mapping := config.param_mapping
    -- payload = {"input": default_params.copy()}
    let d0 : Dict := config.default_params
    let d1 :=
      match alget param_mapping "image_url" with
      | some pk => dset d0 pk (.vStr image_url)
      | none => d0
    let d2 :=
      match alget param_mapping "prompt" with
      | some pk => dset d1 pk (.vStr prompt)
      | none => d1
    let d3 :=
      match alget param_mapping "seconds" with
      | some pk =>
        if model = "kwaivgi/kling-v2.1" then
          if seconds ≤ 5 then dset d2 pk (.vInt 5) else dset d2 pk (.vInt 10)
        else dset d2 pk (.vInt seconds)
      | none => d2
    let d4 :=
      match alget param_mapping "resolution" with
      | some pk =>
        if model = "kwaivgi/kling-v2.1" then
          let dk := dsetdefault d3 "mode" (.vStr "standard")
          if resolution = "1080p" then
            dset (dset dk "mode" (.vStr "pro")) pk (.vStr "16:9")
          else if resolution = "1024p" then
            dset (dset dk "mode" (.vStr "standard")) pk (.vStr "16:9")
          else
            dset (dset dk "mode" (.vStr "standard")) pk (.vStr "1:1")
        else if model = "bytedance/seedance-1-lite" then
          if resolution = "480p" then dset d3 pk (.vStr "480p")
          else if resolution = "720p" then dset d3 pk (.vStr "720p")
          else if resolution = "1080p" then dset d3 pk (.vStr "1080p")
          else if resolution = "1024p" then dset d3 pk (.vStr "1080p")
          else if resolution = "768p" then dset d3 pk (.vStr "720p")
          else dset d3 pk (.vStr "720p")
        else dset d3 pk (.vStr resolution)
      | none => d3
    let d5 :=
      match alget param_mapping "audio_url" with
      | some pk =>
        match audio_url with
        | some a => if a = "" then d4 else dset d4 pk (.vStr a)
        | none => d4
      | none => d4
    .ok ⟨d5⟩

/-- JSON-ish shape of a Replicate prediction's `output` field: a list of
URIs, a single URI string, JSON `null` / absent, or anything else. -/
inductive JVal where
  | jstr (s : String)
  | jlist (xs : List String)
  | jnull
  | jother (tag : String)
deriving DecidableEq

/-- One polled `GET /predictions/{id}` response body, restricted to the
fields the loop in `replicate_video_from_prompt` reads. -/
structure PollResp where
  status : Option String
  output : JVal
  error : Option String
  logs : Option String
deriving DecidableEq

/-- Python f-string rendering of a possibly-`None` value. -/
def pyFormatOpt : Option String → String
  | none => "None"
  | some s => s

/-- One iteration of the poll loop body in `replicate_video_from_prompt`:
`some result` when the status is terminal, `none` when the loop sleeps
and polls again. -/
def pollStep (model : String) (data : PollResp) :
    Option (Except HTTPError String) :=
  if data.status = some "succeeded" ∨ data.status = some "failed" ∨
      data.status = some "canceled" then
    some
      (if data.status ≠ some "succeeded" then
        .error ⟨400,
          model ++ " " ++ pyFormatOpt data.status ++ ": " ++
            pyFormatOpt data.error ++ " | logs: " ++ pyFormatOpt data.logs⟩
      else
        match data.output with
        | .jlist (x :: xs) => .ok ((x :: xs).getLast (List.cons_ne_nil x xs))
        | .jstr s => .ok s
        | _ => .error ⟨500, "Replicate missing output URL"⟩)
  else none

/-- The poll loop run against a scripted sequence of status responses;
returns the loop's outcome together with the number of status requests
issued, or `none` when the script is exhausted with no terminal status
(the Python loop would keep polling).  The fixed 2-second sleep between
polls has no observable effect here. -/
def pollLoop (model : String) : List PollResp →
    Option (Except HTTPError String × Nat)
  | [] => none
  | d :: rest =>
    match pollStep model d with
    | some r => some (r, 1)
    | none =>
      match pollLoop model rest with
      | some (r, n) => some (r, n + 1)
      | none => none

/-- Configuration read by `elevenlabs_tts_bytes`: `ELEVEN_API_KEY` and
`TTS_MAX_CHARS`. -/
structure TTSConfig where
  elevenApiKey : String
  ttsMaxChars : Nat
deriving DecidableEq

/-- Scripted outcome of the single remote ElevenLabs POST: the byte
length of the returned audio, or a raised HTTP error. -/
structure TTSEnv where
  postResult : Except PyErr Nat
deriving DecidableEq

set_option linter.unusedVariables false in
/-- The `elevenlabs_tts_bytes` helper from `main.py`: returns the outcome (audio
byte length or error) together with the number of remote POST requests
issued.  Python's `len(text)` counts code points, as `String.length`
does. -/
def elevenlabs_tts_bytes (cfg : TTSConfig) (env : TTSEnv)
    (text voice_id : String) : Except PyErr Nat × Nat :=
  if cfg.elevenApiKey = "" then
    (.error (.http ⟨500, "ELEVEN_API_KEY not set"⟩), 0)
  else if text.length > cfg.ttsMaxChars then
    (.error (.http ⟨400,
      "Text too long (max " ++ toString cfg.ttsMaxChars ++
        " chars). Please shorten."⟩), 0)
  else
    match env.postResult with
    | .error e => (.error e, 1)
    | .ok n =>
      if n > 9500000 then
        (.error (.http ⟨400,
          "Generated audio >9.5MB. Shorten script or reduce bitrate."⟩), 1)
      else (.ok n, 1)

/-- File-system events performed by `mux_video_audio`. -/
inductive FsEvent where
  | mkdtemp (dir : String)
  | fwrite (path : String)
  | rmtree (dir : String)
deriving DecidableEq

/-- Scripted environment for one `mux_video_audio` run: the temp
directory name returned by `tempfile.mkdtemp()`, the outcomes of the two
downloads (`raise_for_status`), whether the `ffmpeg` invocation run with
`check=True` succeeds, and the byte length of its output file. -/
structure MuxEnv where
  tmpdir : String
  videoDownload : Except PyErr Unit
  audioDownload : Except PyErr Unit
  encoderOk : Bool
  outBytes : Nat
deriving DecidableEq

/-- The `mux_video_audio` helper from `main.py` as its trace of file-system events:
`mkdtemp`, the writes of `in.mp4` / `in.mp3` / `out.mp4`, and
`shutil.rmtree`, which the source reaches only after a successful
encoder run — there is no `try`/`finally` around the body. -/
def mux_video_audio (env : MuxEnv) : Except PyErr Nat × List FsEvent :=
  let tmp := env.tmpdir
  match env.videoDownload with
  | .error e => (.error e, [.mkdtemp tmp])
  | .ok _ =>
    match env.audioDownload with
    | .error e => (.error e, [.mkdtemp tmp, .fwrite (tmp ++ "/in.mp4")])
    | .ok _ =>
      if env.encoderOk then
        (.ok env.outBytes,
          [.mkdtemp tmp, .fwrite (tmp ++ "/in.mp4"),
           .fwrite (tmp ++ "/in.mp3"), .fwrite (tmp ++ "/out.mp4"),
           .rmtree tmp])
      else
        (.error (.other "subprocess.CalledProcessError"),
          [.mkdtemp tmp, .fwrite (tmp ++ "/in.mp4"),
           .fwrite (tmp ++ "/in.mp3")])

def isRmtree : FsEvent → Bool
  | .rmtree _ => true
  | _ => false

/-- Hex digits accepted by `int(s, 16)` for the 32 UUID digits. -/
def isHexDigitChar (c : Char) : Bool :=
  (('0' ≤ c) && (c ≤ '9')) || (('a' ≤ c) && (c ≤ 'f')) ||
    (('A' ≤ c) && (c ≤ 'F'))

/-- Lower-casing of hex digits as performed by the `%032x` rendering of
the parsed 128-bit value (`str(uuid.UUID(...))`). -/
def hexLowerChar (c : Char) : Char :=
  if c = 'A' then 'a' else if c = 'B' then 'b' else if c = 'C' then 'c'
  else if c = 'D' then 'd' else if c = 'E' then 'e' else if c = 'F' then 'f'
  else c

/-- Python `s.replace('urn:', '')`: remove every non-overlapping
occurrence, scanning left to right. -/
def removeUrnTag : List Char → List Char
  | 'u' :: 'r' :: 'n' :: ':' :: rest => removeUrnTag rest
  | c :: rest => c :: removeUrnTag rest
  | [] => []

/-- Python `s.replace('uuid:', '')`. -/
def removeUuidTag : List Char → List Char
  | 'u' :: 'u' :: 'i' :: 'd' :: ':' :: rest => removeUuidTag rest
  | c :: rest => c :: removeUuidTag rest
  | [] => []

/-- Python `s.strip('{}')`: drop leading and trailing braces. -/
def stripBraceChars (l : List Char) : List Char :=
  ((l.dropWhile fun c => c = '{' || c = '}').reverse.dropWhile
    fun c => c = '{' || c = '}').reverse

/-- Python `str(uuid)` formatting: 8-4-4-4-12 groups joined by hyphens. -/
def hyphenate32 (cs : List Char) : String :=
  String.mk (cs.take 8 ++ '-' :: ((cs.drop 8).take 4 ++ '-' ::
    ((cs.drop 12).take 4 ++ '-' :: ((cs.drop 16).take 4 ++ '-' ::
      cs.drop 20))))

/-- Python `str(uuid.UUID(s))` as used by `resolve_user_storage_prefix`:
CPython removes `urn:` and `uuid:`, strips braces, removes hyphens,
requires exactly 32 hex digits, and renders the value back as lowercase
8-4-4-4-12.  (CPython's `int(s, 16)` also tolerates a few exotic
32-character forms — `0x` markers, a sign, underscores, padding
whitespace — which we treat as non-parsing; every claim proved below
holds of the source on those inputs as well.) -/
def pyUUIDNormalize (s : String) : Option String :=
  let t := removeUuidTag (removeUrnTag s.toList)
  let t := stripBraceChars t
  let t := t.filter fun c => c ≠ '-'
  if t.length = 32 ∧ t.all isHexDigitChar then
    some (hyphenate32 (t.map hexLowerChar))
  else none

/-- The `UserContext` request model (`id` is a string; `email`/`name` are
unused by the helpers verified here). -/
structure UserContext where
  id : String
  email : Option String := none
  name : Option String := none
deriving DecidableEq

/-- The `resolve_user_storage_prefix` helper from `main.py`. -/
def resolve_user_storage_prefix :
    Option UserContext → Except HTTPError String
  | none => .ok "anonymous"
  | some uc =>
    match pyUUIDNormalize uc.id with
    | some norm => .ok ("users/" ++ norm)
    | none => .error ⟨400, "user_context.id must be a valid UUID"⟩

/-- Python `prefix.strip("/")`. -/
def stripSlashEnds (l : List Char) : List Char :=
  ((l.dropWhile fun c => c = '/').reverse.dropWhile
    fun c => c = '/').reverse

/-- Python `s.replace("..", "")`: remove non-overlapping occurrences of
`..`, scanning left to right. -/
def removeDotDot : List Char → List Char
  | '.' :: '.' :: rest => removeDotDot rest
  | c :: rest => c :: removeDotDot rest
  | [] => []

/-- The `build_storage_key` helper from `main.py`; `tok` stands for the freshly
generated `uuid.uuid4()` text (hex digits and hyphens). -/
def build_storage_key (pfx category extension tok : String) : String :=
  let safe := String.mk (stripSlashEnds pfx.toList)
  let safe := if safe = "" then "anonymous" else safe
  let safe := String.mk (removeDotDot safe.toList)
  safe ++ "/" ++ category ++ "/" ++ tok ++ "." ++ extension

/-- Two adjacent characters are not both dots: the absence of a `..`
segment, stated pairwise along a character list via `List.Chain'`. -/
def noDDRel (x y : Char) : Prop := ¬(x = '.' ∧ y = '.')

instance (x y : Char) : Decidable (noDDRel x y) :=
  inferInstanceAs (Decidable (¬(x = '.' ∧ y = '.')))

/-- Python `a or b` for an optional string: `None` and `""` are falsy
(`model = req.model or DEFAULT_MODEL`). -/
def pyOrStr (a : Option String) (b : String) : String :=
  match a with
  | none => b
  | some s => if s = "" then b else s

/-- Request body of `/jobs_prompt_only`. -/
structure JobPromptOnly where
  image_url : String
  prompt : String
  seconds : Int := 6
  resolution : String := "768p"
  model : Option String := none
  user_context : Option UserContext := none

/-- Collaborator calls observable in the prompt-only pipeline. -/
inductive PipeEvent where
  | upload (key : String)
  | insert
  | delete (key : String)
deriving DecidableEq

/-- The `supabase_delete` helper from `main.py`: returns early when configuration or
the key is missing, and swallows every `httpx.HTTPError` raised by the
remote DELETE — it has no error outcome at all (return type `Unit`). -/
def supabase_delete (supaEnvSet : Bool) (deleteRaises : Bool)
    (object_path : String) : Unit :=
  if ¬supaEnvSet ∨ object_path = "" then ()
  else if deleteRaises then () else ()

/-- Scripted outcomes of the collaborator calls made by
`create_job_with_prompt`: video generation, result download, blob
upload, metadata insert; `keyToken` is the `uuid.uuid4()` used in the
storage key, and the last two fields drive `supabase_delete`. -/
structure OrchEnv where
  genResult : Except PyErr String
  fetchResult : Except PyErr Nat
  uploadResult : Except PyErr String
  insertResult : Except PyErr Unit
  keyToken : String
  supaEnvSet : Bool
  deleteRaises : Bool

/-- The `/jobs_prompt_only` handler `create_job_with_prompt`, as its
result (the JSON pair `video_url`/`final_url` or the propagated
exception) together with the ordered trace of collaborator calls.  The
`try`/`except` around `insert_pet_video` runs the compensating
`supabase_delete` and then re-raises the original exception. -/
def create_job_with_prompt (env : OrchEnv) (req : JobPromptOnly) :
    Except PyErr (String × String) × List PipeEvent :=
  let model := pyOrStr req.model DEFAULT_MODEL
  match resolve_user_storage_prefix req.user_context with
  | .error e => (.error (.http e), [])
  | .ok pfx =>
    if model = "wan-video/wan-2.2-s2v" then
      (.error (.http ⟨400,
        "wan-video/wan-2.2-s2v is a speech-to-video model that requires audio. Use /jobs_prompt_tts endpoint instead."⟩),
       [])
    else
      match env.genResult with
      | .error e => (.error e, [])
      | .ok video_url =>
        match env.fetchResult with
        | .error e => (.error e, [])
        | .ok _ =>
          let final_key := build_storage_key pfx "videos" "mp4" env.keyToken
          match env.uploadResult with
          | .error e => (.error e, [.upload final_key])
          | .ok final_url =>
            match env.insertResult with
            | .ok _ =>
              (.ok (video_url, final_url), [.upload final_key, .insert])
            | .error e =>
              let _ := supabase_delete env.supaEnvSet env.deleteRaises
                final_key
              (.error e, [.upload final_key, .insert, .delete final_key])

/-- A reference to a mutable Python dict object: either the
`default_params` dict stored in the registry entry for a model, or a
dynamically allocated dict (such as the `.copy()` made by
`build_model_payload`). -/
inductive DictRef where
  | reg (model : String)
  | dyn (n : Nat)
deriving DecidableEq

/-- The mutable store: the registry's `default_params` dict objects plus
dynamically allocated dicts. -/
structure Heap where
  registry : String → Dict
  next : Nat
  alloc : Nat → Dict

def readRef (h : Heap) : DictRef → Dict
  | .reg m => h.registry m
  | .dyn n => h.alloc n

/-- In-place mutation `d[k] = v` through a reference: writes to whichever
dict object the reference denotes. -/
def writeRef (h : Heap) (r : DictRef) (k : String) (v : Value) : Heap :=
  match r with
  | .reg m =>
    { h with registry := fun m' => if m' = m then dset (h.registry m) k v
        else h.registry m' }
  | .dyn n =>
    { h with alloc := fun n' => if n' = n then dset (h.alloc n) k v
        else h.alloc n' }

/-- Python `d.setdefault(k, v)` through a reference. -/
def setdefaultRef (h : Heap) (r : DictRef) (k : String) (v : Value) : Heap :=
  match dget (readRef h r) k with
  | some _ => h
  | none => writeRef h r k v

/-- Python `dict.copy()`: allocate a fresh dict with the same contents. -/
def pyDictCopy (h : Heap) (r : DictRef) : Heap × DictRef :=
  ({ registry := h.registry
     next := h.next + 1
     alloc := fun n' => if n' = h.next then readRef h r else h.alloc n' },
   .dyn h.next)

/-- The `if "image_url" in param_mapping:` block of
`build_model_payload`, as a pure dict transformation. -/
def mapImageStep (pm : List (String × String)) (img : String)
    (d : Dict) : Dict :=
  match alget pm "image_url" with
  | some pk => dset d pk (.vStr img)
  | none => d

def mapPromptStep (pm : List (String × String)) (pr : String)
    (d : Dict) : Dict :=
  match alget pm "prompt" with
  | some pk => dset d pk (.vStr pr)
  | none => d

def mapSecondsStep (model : String) (pm : List (String × String))
    (sec : Int) (d : Dict) : Dict :=
  match alget pm "seconds" with
  | some pk =>
    if model = "kwaivgi/kling-v2.1" then
      if sec ≤ 5 then dset d pk (.vInt 5) else dset d pk (.vInt 10)
    else dset d pk (.vInt sec)
  | none => d

def mapResolutionStep (model : String) (pm : List (String × String))
    (res : String) (d : Dict) : Dict :=
  match alget pm "resolution" with
  | some pk =>
    if model = "kwaivgi/kling-v2.1" then
      let dk := dsetdefault d "mode" (.vStr "standard")
      if res = "1080p" then dset (dset dk "mode" (.vStr "pro")) pk (.vStr "16:9")
      else if res = "1024p" then
        dset (dset dk "mode" (.vStr "standard")) pk (.vStr "16:9")
      else dset (dset dk "mode" (.vStr "standard")) pk (.vStr "1:1")
    else if model = "bytedance/seedance-1-lite" then
      if res = "480p" then dset d pk (.vStr "480p")
      else if res = "720p" then dset d pk (.vStr "720p")
      else if res = "1080p" then dset d pk (.vStr "1080p")
      else if res = "1024p" then dset d pk (.vStr "1080p")
      else if res = "768p" then dset d pk (.vStr "720p")
      else dset d pk (.vStr "720p")
    else dset d pk (.vStr res)
  | none => d

def mapAudioStep (pm : List (String × String)) (au : Option String)
    (d : Dict) : Dict :=
  match alget pm "audio_url" with
  | some pk =>
    match au with
    | some a => if a = "" then d else dset d pk (.vStr a)
    | none => d
  | none => d

/-- The same five blocks as in-place mutations through a dict
reference. -/
def mapImageStepH (pm : List (String × String)) (img : String)
    (h : Heap) (r : DictRef) : Heap :=
  match alget pm "image_url" with
  | some pk => writeRef h r pk (.vStr img)
  | none => h

def mapPromptStepH (pm : List (String × String)) (pr : String)
    (h : Heap) (r : DictRef) : Heap :=
  match alget pm "prompt" with
  | some pk => writeRef h r pk (.vStr pr)
  | none => h

def mapSecondsStepH (model : String) (pm : List (String × String))
    (sec : Int) (h : Heap) (r : DictRef) : Heap :=
  match alget pm "seconds" with
  | some pk =>
    if model = "kwaivgi/kling-v2.1" then
      if sec ≤ 5 then writeRef h r pk (.vInt 5)
      else writeRef h r pk (.vInt 10)
    else writeRef h r pk (.vInt sec)
  | none => h

def mapResolutionStepH (model : String) (pm : List (String × String))
    (res : String) (h : Heap) (r : DictRef) : Heap :=
  match alget pm "resolution" with
  | some pk =>
    if model = "kwaivgi/kling-v2.1" then
      let hk := setdefaultRef h r "mode" (.vStr "standard")
      if res = "1080p" then
        writeRef (writeRef hk r "mode" (.vStr "pro")) r pk (.vStr "16:9")
      else if res = "1024p" then
        writeRef (writeRef hk r "mode" (.vStr "standard")) r pk (.vStr "16:9")
      else
        writeRef (writeRef hk r "mode" (.vStr "standard")) r pk (.vStr "1:1")
    else if model = "bytedance/seedance-1-lite" then
      if res = "480p" then writeRef h r pk (.vStr "480p")
      else if res = "720p" then writeRef h r pk (.vStr "720p")
      else if res = "1080p" then writeRef h r pk (.vStr "1080p")
      else if res = "1024p" then writeRef h r pk (.vStr "1080p")
      else if res = "768p" then writeRef h r pk (.vStr "720p")
      else writeRef h r pk (.vStr "720p")
    else writeRef h r pk (.vStr res)
  | none => h

def mapAudioStepH (pm : List (String × String)) (au : Option String)
    (h : Heap) (r : DictRef) : Heap :=
  match alget pm "audio_url" with
  | some pk =>
    match au with
    | some a => if a = "" then h else writeRef h r pk (.vStr a)
    | none => h
  | none => h

/-- Variant of `build_model_payload` with the mutable dict objects made explicit:
`config.get("default_params", {})` aliases the registry dict, `.copy()`
allocates a fresh dict, and every following `payload["input"][...] = ...`
mutates through the reference returned by the copy. -/
def build_model_payloadH (h : Heap) (model image_url prompt : String)
    (seconds : Int) (resolution : String) (audio_url : Option String) :
    Except HTTPError (Heap × DictRef) :=
  match get_model_config model with
  | .error e => .error e
  | .ok config =>
    let pm := config.param_mapping
    let hr := pyDictCopy h (.reg model)
    let h1 := hr.1
    let r := hr.2
    let h2 := mapImageStepH pm image_url h1 r
    let h3 := mapPromptStepH pm prompt h2 r
    let h4 := mapSecondsStepH model pm seconds h3 r
    let h5 := mapResolutionStepH model pm resolution h4 r
    let h6 := mapAudioStepH pm audio_url h5 r
    .ok (h6, r)

/-- The store at process start: each registry entry holds its model's
`default_params`, nothing allocated yet. -/
def registryHeap0 : Heap :=
  { registry := fun m =>
      ((alget SUPPORTED_MODELS m).map ModelConfig.default_params).getD []
    next := 0
    alloc := fun _ => [] }

theorem dget_dset_same (d : Dict) (k : String) (v : Value) :
    dget (dset d k v) k = some v := by
  induction d with
  | nil => simp [dset, dget]
  | cons hd tl ih =>
    obtain ⟨k', v'⟩ := hd
    by_cases h : k' = k <;> simp [dset, dget, h, ih]

theorem dget_dset_ne (d : Dict) (k k' : String) (v : Value) (h : k' ≠ k) :
    dget (dset d k v) k' = dget d k' := by
  induction d with
  | nil => simp [dset, dget, Ne.symm h]
  | cons hd tl ih =>
    obtain ⟨k₀, v₀⟩ := hd
    by_cases h₀ : k₀ = k
    · subst h₀
      simp [dset, dget, Ne.symm h]
    · simp [dset, dget, h₀, ih]

example :
    (build_model_payload "kwaivgi/kling-v2.1" "i" "p" 6 "1080p" none).map
      (fun p => dget p.input "mode") = .ok (some (.vStr "pro")) := by decide

example :
    (build_model_payload "minimax/hailuo-02" "i" "p" 6 "1080p" none).map
      (fun p => dget p.input "resolution") = .ok (some (.vStr "1080p")) := by
  decide

/-- C7: for every integer `seconds`, the Kling payload's duration field is 5
when `seconds ≤ 5` and 10 otherwise. -/
theorem kling_duration_snap (img pr res : String) (sec : Int) :
    ∃ d : Dict,
      build_model_payload "kwaivgi/kling-v2.1" img pr sec res none = .ok ⟨d⟩ ∧
      dget d "duration" = some (.vInt (if sec ≤ 5 then 5 else 10)) := by
  by_cases h5 : sec ≤ 5 <;>
    by_cases hA : res = "1080p" <;>
      by_cases hB : res = "1024p" <;>
        simp [build_model_payload, get_model_config, alget, SUPPORTED_MODELS,
          dsetdefault, dget, dset, h5, hA, hB]

/-- C3 counterexample: `minimax/hailuo-02` has the fixed resolution set
`["512p", "768p", "1080p"]`, yet `build_model_payload` with the
unrecognized label `"999p"` puts `"999p"` itself into the payload — the
label is silently passed through, no configured default is substituted. -/
theorem hailuo_no_resolution_fallback :
    ((alget SUPPORTED_MODELS "minimax/hailuo-02").map
        ModelConfig.supported_resolutions =
      some (some ["512p", "768p", "1080p"])) ∧
    "999p" ∉ ["512p", "768p", "1080p"] ∧
    (build_model_payload "minimax/hailuo-02" "http://img" "wave" 6 "999p"
        none).map (fun p => dget p.input "resolution") =
      .ok (some (.vStr "999p")) := by
  decide

/-- C3 amended: among the models with a fixed enumerated resolution set,
`minimax/hailuo-02` and `wan-video/wan-2.1` pass an unrecognized label
through into the payload unchanged; `bytedance/seedance-1-lite` never
passes an out-of-set label through, but it does not always substitute
the default either: `"1024p"` is remapped to `"1080p"`, and every other
label outside its supported set (including `"768p"`) becomes the
default `"720p"`. -/
theorem resolution_fallback_amended :
    (∀ (img pr res : String) (sec : Int), res ∉ ["512p", "768p", "1080p"] →
      (build_model_payload "minimax/hailuo-02" img pr sec res none).map
          (fun p => dget p.input "resolution") = .ok (some (.vStr res))) ∧
    (∀ (img pr res : String) (sec : Int), res ∉ ["768p", "1080p"] →
      (build_model_payload "wan-video/wan-2.1" img pr sec res none).map
          (fun p => dget p.input "resolution") = .ok (some (.vStr res))) ∧
    (∀ (img pr res : String) (sec : Int),
      res ∉ ["480p", "720p", "1080p"] →
      (build_model_payload "bytedance/seedance-1-lite" img pr sec res
          none).map (fun p => dget p.input "resolution") =
        .ok (some (.vStr (if res = "1024p" then "1080p" else "720p")))) := by
  refine ⟨?_, ?_, ?_⟩
  · intro img pr res sec _
    simp [build_model_payload, get_model_config, alget, SUPPORTED_MODELS,
      dset, dget, Except.map]
  · intro img pr res sec _
    simp [build_model_payload, get_model_config, alget, SUPPORTED_MODELS,
      dset, dget, Except.map]
  · intro img pr res sec h
    simp only [List.mem_cons, List.mem_singleton, not_or] at h
    obtain ⟨h1, h2, h3⟩ := h
    by_cases h4 : res = "1024p" <;> by_cases h5 : res = "768p" <;>
      simp [build_model_payload, get_model_config, alget, SUPPORTED_MODELS,
        dset, dget, Except.map, h1, h2, h3, h4, h5]

/-- Witness for the amended C3 theorem: `"999p"` for all three models,
plus the two special SeeDance labels `"1024p"` (remapped to `"1080p"`)
and `"768p"` (remapped to the default `"720p"`). -/
theorem resolution_fallback_amended_witness :
    ("999p" ∉ ["512p", "768p", "1080p"] ∧
      (build_model_payload "minimax/hailuo-02" "i" "p" 6 "999p" none).map
          (fun p => dget p.input "resolution") = .ok (some (.vStr "999p"))) ∧
    ("999p" ∉ ["768p", "1080p"] ∧
      (build_model_payload "wan-video/wan-2.1" "i" "p" 6 "999p" none).map
          (fun p => dget p.input "resolution") = .ok (some (.vStr "999p"))) ∧
    ("999p" ∉ ["480p", "720p", "1080p"] ∧
      (build_model_payload "bytedance/seedance-1-lite" "i" "p" 6 "999p"
          none).map (fun p => dget p.input "resolution") =
        .ok (some (.vStr "720p"))) ∧
    ("1024p" ∉ ["480p", "720p", "1080p"] ∧
      (build_model_payload "bytedance/seedance-1-lite" "i" "p" 6 "1024p"
          none).map (fun p => dget p.input "resolution") =
        .ok (some (.vStr "1080p"))) ∧
    ("768p" ∉ ["480p", "720p", "1080p"] ∧
      (build_model_payload "bytedance/seedance-1-lite" "i" "p" 6 "768p"
          none).map (fun p => dget p.input "resolution") =
        .ok (some (.vStr "720p"))) :=
  ⟨⟨by decide, resolution_fallback_amended.1 "i" "p" "999p" 6 (by decide)⟩,
   ⟨by decide, resolution_fallback_amended.2.1 "i" "p" "999p" 6 (by decide)⟩,
   ⟨by decide, resolution_fallback_amended.2.2 "i" "p" "999p" 6 (by decide)⟩,
   ⟨by decide, resolution_fallback_amended.2.2 "i" "p" "1024p" 6 (by decide)⟩,
   ⟨by decide, resolution_fallback_amended.2.2 "i" "p" "768p" 6 (by decide)⟩⟩

lemma payloadFields_hailuo (img pr res : String) (sec : Int)
    (au : Option String) :
    ∃ d : Dict,
      build_model_payload "minimax/hailuo-02" img pr sec res au = .ok ⟨d⟩ ∧
      dget d "first_frame_image" = some (.vStr img) ∧
      dget d "prompt" = some (.vStr pr) ∧
      dget d "duration" = some (.vInt sec) ∧
      dget d "resolution" = some (.vStr res) ∧
      dget d "audio" = none := by
  simp [build_model_payload, get_model_config, alget, SUPPORTED_MODELS,
    dset, dget]

lemma payloadFields_wan21 (img pr res : String) (sec : Int)
    (au : Option String) :
    ∃ d : Dict,
      build_model_payload "wan-video/wan-2.1" img pr sec res au = .ok ⟨d⟩ ∧
      dget d "image" = some (.vStr img) ∧
      dget d "prompt" = some (.vStr pr) ∧
      dget d "duration" = some (.vInt sec) ∧
      dget d "resolution" = some (.vStr res) ∧
      dget d "audio" = none := by
  simp [build_model_payload, get_model_config, alget, SUPPORTED_MODELS,
    dset, dget]

lemma payloadFields_kling (img pr res : String) (sec : Int)
    (au : Option String) :
    ∃ d : Dict,
      build_model_payload "kwaivgi/kling-v2.1" img pr sec res au = .ok ⟨d⟩ ∧
      (dget d "start_image").isSome = true ∧
      (dget d "prompt").isSome = true ∧
      (dget d "duration").isSome = true ∧
      (dget d "aspect_ratio").isSome = true ∧
      dget d "audio" = none := by
  by_cases h5 : sec ≤ 5 <;>
    by_cases hA : res = "1080p" <;>
      by_cases hB : res = "1024p" <;>
        simp [build_model_payload, get_model_config, alget, SUPPORTED_MODELS,
          dsetdefault, dset, dget, h5, hA, hB]

lemma payloadFields_seedance (img pr res : String) (sec : Int)
    (au : Option String) :
    ∃ d : Dict,
      build_model_payload "bytedance/seedance-1-lite" img pr sec res au =
        .ok ⟨d⟩ ∧
      (dget d "image").isSome = true ∧
      (dget d "prompt").isSome = true ∧
      (dget d "duration").isSome = true ∧
      (dget d "resolution").isSome = true ∧
      dget d "audio" = none := by
  by_cases h1 : res = "480p" <;>
    by_cases h2 : res = "720p" <;>
      by_cases h3 : res = "1080p" <;>
        by_cases h4 : res = "1024p" <;>
          by_cases h5 : res = "768p" <;>
            simp [build_model_payload, get_model_config, alget,
              SUPPORTED_MODELS, dset, dget, h1, h2, h3, h4, h5]

lemma payloadFields_s2v (img pr res : String) (sec : Int)
    (au : Option String) :
    ∃ d : Dict,
      build_model_payload "wan-video/wan-2.2-s2v" img pr sec res au =
        .ok ⟨d⟩ ∧
      (dget d "image").isSome = true ∧
      (dget d "prompt").isSome = true ∧
      (dget d "duration").isSome = true ∧
      (dget d "resolution").isSome = true ∧
      (∀ a, au = some a → a ≠ "" → dget d "audio" = some (.vStr a)) ∧
      (au = none → dget d "audio" = none) := by
  rcases au with _ | a
  · simp [build_model_payload, get_model_config, alget, SUPPORTED_MODELS,
      dset, dget]
  · by_cases ha : a = "" <;>
      simp [build_model_payload, get_model_config, alget, SUPPORTED_MODELS,
        dset, dget, ha]

/-- C6: for every supported model, the payload contains the mapped
provider-specific field for each canonical input that is present, the
mapped audio field carries the supplied audio URL when one is given, and
no `audio` key (hence no null/empty audio value) appears when no audio
URL is supplied. -/
theorem build_payload_mapped_fields :
    ∀ mc ∈ SUPPORTED_MODELS, ∀ (img pr : String) (sec : Int) (res : String)
      (au : Option String),
    ∃ d : Dict,
      build_model_payload mc.1 img pr sec res au = .ok ⟨d⟩ ∧
      (∀ pk, alget mc.2.param_mapping "image_url" = some pk →
        (dget d pk).isSome = true) ∧
      (∀ pk, alget mc.2.param_mapping "prompt" = some pk →
        (dget d pk).isSome = true) ∧
      (∀ pk, alget mc.2.param_mapping "seconds" = some pk →
        (dget d pk).isSome = true) ∧
      (∀ pk, alget mc.2.param_mapping "resolution" = some pk →
        (dget d pk).isSome = true) ∧
      (∀ pk a, alget mc.2.param_mapping "audio_url" = some pk →
        au = some a → a ≠ "" → dget d pk = some (.vStr a)) ∧
      (au = none → dget d "audio" = none) := by
  intro mc hmc img pr sec res au
  fin_cases hmc
  · obtain ⟨d, hb, h1, h2, h3, h4, h5⟩ := payloadFields_hailuo img pr res sec au
    refine ⟨d, hb, ?_, ?_, ?_, ?_, ?_, fun _ => h5⟩ <;>
      first
        | (intro pk hpk; simp [alget] at hpk; subst hpk; simp [h1, h2, h3, h4])
        | (intro pk a hpk; simp [alget] at hpk)
  · obtain ⟨d, hb, h1, h2, h3, h4, h5⟩ := payloadFields_wan21 img pr res sec au
    refine ⟨d, hb, ?_, ?_, ?_, ?_, ?_, fun _ => h5⟩ <;>
      first
        | (intro pk hpk; simp [alget] at hpk; subst hpk; simp [h1, h2, h3, h4])
        | (intro pk a hpk; simp [alget] at hpk)
  · obtain ⟨d, hb, h1, h2, h3, h4, h5⟩ := payloadFields_kling img pr res sec au
    refine ⟨d, hb, ?_, ?_, ?_, ?_, ?_, fun _ => h5⟩ <;>
      first
        | (intro pk hpk; simp [alget] at hpk; subst hpk; simp [h1, h2, h3, h4])
        | (intro pk a hpk; simp [alget] at hpk)
  · obtain ⟨d, hb, h1, h2, h3, h4, h5, h6⟩ := payloadFields_s2v img pr res sec au
    refine ⟨d, hb, ?_, ?_, ?_, ?_, ?_, h6⟩
    · intro pk hpk; simp [alget] at hpk; subst hpk; simp [h1]
    · intro pk hpk; simp [alget] at hpk; subst hpk; simp [h2]
    · intro pk hpk; simp [alget] at hpk; subst hpk; simp [h3]
    · intro pk hpk; simp [alget] at hpk; subst hpk; simp [h4]
    · intro pk a hpk hau ha
      simp [alget] at hpk; subst hpk
      exact h5 a hau ha
  · obtain ⟨d, hb, h1, h2, h3, h4, h5⟩ :=
      payloadFields_seedance img pr res sec au
    refine ⟨d, hb, ?_, ?_, ?_, ?_, ?_, fun _ => h5⟩ <;>
      first
        | (intro pk hpk; simp [alget] at hpk; subst hpk; simp [h1, h2, h3, h4])
        | (intro pk a hpk; simp [alget] at hpk)

/-- Witness for C6 at a concrete model and inputs. -/
theorem build_payload_mapped_fields_witness :
    (("minimax/hailuo-02",
      { name := "Hailuo-02"
        default_params := [("prompt_optimizer", .vBool false)]
        param_mapping :=
          [("image_url", "first_frame_image"), ("prompt", "prompt"),
           ("seconds", "duration"), ("resolution", "resolution")]
        supported_resolutions :=
          some ["512p", "768p", "1080p"] }) : String × ModelConfig) ∈
        SUPPORTED_MODELS ∧
    ∃ d : Dict,
      build_model_payload "minimax/hailuo-02" "i" "p" 6 "768p" none =
        .ok ⟨d⟩ ∧
      (∀ pk,
        alget [("image_url", "first_frame_image"), ("prompt", "prompt"),
          ("seconds", "duration"), ("resolution", "resolution")]
          "image_url" = some pk → (dget d pk).isSome = true) ∧
      (∀ pk,
        alget [("image_url", "first_frame_image"), ("prompt", "prompt"),
          ("seconds", "duration"), ("resolution", "resolution")]
          "prompt" = some pk → (dget d pk).isSome = true) ∧
      (∀ pk,
        alget [("image_url", "first_frame_image"), ("prompt", "prompt"),
          ("seconds", "duration"), ("resolution", "resolution")]
          "seconds" = some pk → (dget d pk).isSome = true) ∧
      (∀ pk,
        alget [("image_url", "first_frame_image"), ("prompt", "prompt"),
          ("seconds", "duration"), ("resolution", "resolution")]
          "resolution" = some pk → (dget d pk).isSome = true) ∧
      (∀ pk a,
        alget [("image_url", "first_frame_image"), ("prompt", "prompt"),
          ("seconds", "duration"), ("resolution", "resolution")]
          "audio_url" = some pk → (none : Option String) = some a → a ≠ "" →
        dget d pk = some (.vStr a)) ∧
      ((none : Option String) = none → dget d "audio" = none) :=
  ⟨by decide,
   build_payload_mapped_fields
     (("minimax/hailuo-02",
       { name := "Hailuo-02"
         default_params := [("prompt_optimizer", .vBool false)]
         param_mapping :=
           [("image_url", "first_frame_image"), ("prompt", "prompt"),
            ("seconds", "duration"), ("resolution", "resolution")]
         supported_resolutions :=
           some ["512p", "768p", "1080p"] }) : String × ModelConfig)
     (by decide) "i" "p" 6 "768p" none⟩

lemma pollLoop_cons_none (model : String) (d : PollResp) (l : List PollResp)
    (hd : pollStep model d = none) :
    pollLoop model (d :: l) =
      (pollLoop model l).map (fun rn => (rn.1, rn.2 + 1)) := by
  simp only [pollLoop, hd]
  cases pollLoop model l with
  | none => rfl
  | some rn => rfl

lemma pollLoop_append_nonterminal (model : String) (pre rest : List PollResp)
    (hpre : ∀ d ∈ pre, pollStep model d = none) :
    pollLoop model (pre ++ rest) =
      (pollLoop model rest).map (fun rn => (rn.1, rn.2 + pre.length)) := by
  induction pre with
  | nil =>
    simp only [List.nil_append, List.length_nil]
    cases pollLoop model rest with
    | none => simp
    | some rn => simp
  | cons d pre ih =>
    have hd : pollStep model d = none := hpre d (by simp)
    have hrest : ∀ d' ∈ pre, pollStep model d' = none := fun d' h' =>
      hpre d' (by simp [h'])
    rw [List.cons_append, pollLoop_cons_none model d (pre ++ rest) hd,
      ih hrest]
    cases pollLoop model rest with
    | none => simp
    | some rn => simp [Nat.add_comm, Nat.add_assoc, Nat.add_left_comm]

lemma pollStep_succeeded (model : String) (resp : PollResp)
    (hst : resp.status = some "succeeded") :
    pollStep model resp = some
      (match resp.output with
        | .jlist (x :: xs) => .ok ((x :: xs).getLast (List.cons_ne_nil x xs))
        | .jstr s => .ok s
        | _ => .error ⟨500, "Replicate missing output URL"⟩) := by
  simp [pollStep, hst]

lemma pollLoop_first_terminal (model : String) (pre post : List PollResp)
    (resp : PollResp) (r : Except HTTPError String)
    (hpre : (pre.all fun d => (pollStep model d).isNone) = true)
    (hr : pollStep model resp = some r) :
    pollLoop model (pre ++ resp :: post) = some (r, pre.length + 1) := by
  have hpre' : ∀ d ∈ pre, pollStep model d = none := by
    intro d hd
    exact Option.isNone_iff_eq_none.mp (List.all_eq_true.mp hpre d hd)
  rw [pollLoop_append_nonterminal model pre _ hpre']
  simp only [pollLoop, hr]
  simp [Nat.add_comm]

/-- C4: on the first terminal status `succeeded`, the poll loop returns
the last element of a non-empty list output, the string itself for a
string output, and HTTP 500 "Replicate missing output URL" for an empty
list, a missing (`null`) output, or any other shape — after exactly one
status request beyond the non-terminal responses. -/
theorem poller_succeeded_output_shapes (model : String)
    (pre post : List PollResp) (resp : PollResp)
    (hpre : (pre.all fun d => (pollStep model d).isNone) = true)
    (hst : resp.status = some "succeeded") :
    (∀ xs last, resp.output = .jlist xs → xs.getLast? = some last →
      pollLoop model (pre ++ resp :: post) =
        some (.ok last, pre.length + 1)) ∧
    (∀ s, resp.output = .jstr s →
      pollLoop model (pre ++ resp :: post) = some (.ok s, pre.length + 1)) ∧
    ((resp.output = .jlist [] ∨ resp.output = .jnull ∨
        ∃ t, resp.output = .jother t) →
      pollLoop model (pre ++ resp :: post) =
        some (.error ⟨500, "Replicate missing output URL"⟩,
          pre.length + 1)) := by
  refine ⟨?_, ?_, ?_⟩
  · intro xs last ho hlast
    cases xs with
    | nil => simp at hlast
    | cons x xs' =>
      have hg : (x :: xs').getLast (List.cons_ne_nil x xs') = last := by
        rw [List.getLast?_eq_getLast (x :: xs') (List.cons_ne_nil x xs')]
          at hlast
        exact Option.some_injective _ hlast
      refine pollLoop_first_terminal model pre post resp _ hpre ?_
      rw [pollStep_succeeded model resp hst, ho]
      simp [hg]
  · intro s ho
    refine pollLoop_first_terminal model pre post resp _ hpre ?_
    rw [pollStep_succeeded model resp hst, ho]
  · intro h
    refine pollLoop_first_terminal model pre post resp _ hpre ?_
    rcases h with ho | ho | ⟨t, ho⟩ <;> rw [pollStep_succeeded model resp hst, ho]

/-- Witness for C4: two `running` responses then `succeeded` with output
`["a", "b", "final.mp4"]` yields `final.mp4` after three requests. -/
theorem poller_succeeded_output_shapes_witness :
    ((([⟨some "running", .jnull, none, none⟩,
        ⟨some "running", .jnull, none, none⟩] : List PollResp).all
        fun d => (pollStep "minimax/hailuo-02" d).isNone) = true) ∧
    (⟨some "succeeded", .jlist ["a", "b", "final.mp4"], none, none⟩ :
      PollResp).status = some "succeeded" ∧
    pollLoop "minimax/hailuo-02"
        ([⟨some "running", .jnull, none, none⟩,
          ⟨some "running", .jnull, none, none⟩] ++
          [(⟨some "succeeded", .jlist ["a", "b", "final.mp4"], none,
            none⟩ : PollResp)]) = some (.ok "final.mp4", 3) :=
  ⟨by decide, by decide,
   (poller_succeeded_output_shapes "minimax/hailuo-02"
      [⟨some "running", .jnull, none, none⟩,
       ⟨some "running", .jnull, none, none⟩] []
      ⟨some "succeeded", .jlist ["a", "b", "final.mp4"], none, none⟩
      (by decide) (by decide)).1 ["a", "b", "final.mp4"] "final.mp4"
      (by decide) (by decide)⟩

/-- C5: on the first terminal status `failed` or `canceled`, the poll
loop raises HTTP 400 whose detail carries the provider's error text and
logs, and issues no status request beyond that response. -/
theorem poller_terminal_failure (model : String) (pre post : List PollResp)
    (resp : PollResp) (st : String)
    (hpre : (pre.all fun d => (pollStep model d).isNone) = true)
    (hst : resp.status = some st)
    (hterm : st = "failed" ∨ st = "canceled") :
    pollLoop model (pre ++ resp :: post) =
      some (.error ⟨400,
        model ++ " " ++ st ++ ": " ++ pyFormatOpt resp.error ++
          " | logs: " ++ pyFormatOpt resp.logs⟩, pre.length + 1) := by
  refine pollLoop_first_terminal model pre post resp _ hpre ?_
  rcases hterm with h | h <;> subst h <;> simp [pollStep, hst, pyFormatOpt]

/-- Witness for C5: a single `failed` response with error `boom` and logs
`log1` produces the 400 error carrying both, after one request, even with
further scripted responses available. -/
theorem poller_terminal_failure_witness :
    ((([] : List PollResp).all
        fun d => (pollStep "m" d).isNone) = true) ∧
    (⟨some "failed", .jnull, some "boom", some "log1"⟩ :
      PollResp).status = some "failed" ∧
    (("failed" : String) = "failed" ∨ ("failed" : String) = "canceled") ∧
    pollLoop "m"
        ([] ++ ⟨some "failed", .jnull, some "boom", some "log1"⟩ ::
          [⟨some "running", .jnull, none, none⟩]) =
      some (.error ⟨400,
        "m" ++ " " ++ "failed" ++ ": " ++ pyFormatOpt (some "boom") ++
          " | logs: " ++ pyFormatOpt (some "log1")⟩, 0 + 1) ∧
    ("m" ++ " " ++ "failed" ++ ": " ++ pyFormatOpt (some "boom") ++
        " | logs: " ++ pyFormatOpt (some "log1")) =
      "m failed: boom | logs: log1" :=
  ⟨by decide, by decide, Or.inl rfl,
   poller_terminal_failure "m" []
     [⟨some "running", .jnull, none, none⟩]
     ⟨some "failed", .jnull, some "boom", some "log1"⟩ "failed"
     (by decide) (by decide) (Or.inl rfl),
   by decide⟩

/-- C9: with the API key configured, text longer than `TTS_MAX_CHARS`
is rejected with HTTP 400 and zero remote requests are issued. -/
theorem tts_length_guard (cfg : TTSConfig) (env : TTSEnv)
    (text voice_id : String) (hkey : cfg.elevenApiKey ≠ "")
    (hlen : text.length > cfg.ttsMaxChars) :
    elevenlabs_tts_bytes cfg env text voice_id =
      (.error (.http ⟨400,
        "Text too long (max " ++ toString cfg.ttsMaxChars ++
          " chars). Please shorten."⟩), 0) := by
  simp [elevenlabs_tts_bytes, hkey, hlen]

/-- Witness for C9 at `TTS_MAX_CHARS = 3` and a 4-character text. -/
theorem tts_length_guard_witness :
    ("k" : String) ≠ "" ∧ ("abcd" : String).length > 3 ∧
    elevenlabs_tts_bytes ⟨"k", 3⟩ ⟨.ok 0⟩ "abcd" "v" =
      (.error (.http ⟨400,
        "Text too long (max " ++ toString 3 ++
          " chars). Please shorten."⟩), 0) :=
  ⟨by decide, by decide,
   tts_length_guard ⟨"k", 3⟩ ⟨.ok 0⟩ "abcd" "v" (by decide) (by decide)⟩

/-- C2 counterexample: when the encoder invocation fails, the run raises
`CalledProcessError` and performs no `rmtree` at all — the temporary
directory and the downloaded files are left behind. -/
theorem mux_cleanup_counterexample :
    (mux_video_audio ⟨"/tmp/t", .ok (), .ok (), false, 0⟩).1 =
      .error (.other "subprocess.CalledProcessError") ∧
    ((mux_video_audio ⟨"/tmp/t", .ok (), .ok (), false, 0⟩).2.countP
      fun e => isRmtree e) = 0 := by
  decide

/-- C2 amended: `mux_video_audio` removes its temporary directory exactly
once on the successful path, but performs no removal when the encoder
invocation fails or when either download fails. -/
theorem mux_cleanup_success_only (env : MuxEnv) :
    (env.videoDownload = .ok () → env.audioDownload = .ok () →
      env.encoderOk = true →
      (mux_video_audio env).2 =
        [.mkdtemp env.tmpdir, .fwrite (env.tmpdir ++ "/in.mp4"),
         .fwrite (env.tmpdir ++ "/in.mp3"),
         .fwrite (env.tmpdir ++ "/out.mp4"), .rmtree env.tmpdir]) ∧
    (env.encoderOk = false →
      ((mux_video_audio env).2.countP fun e => isRmtree e) = 0) ∧
    (∀ e, env.videoDownload = .error e →
      ((mux_video_audio env).2.countP fun ev => isRmtree ev) = 0) ∧
    (∀ e, env.audioDownload = .error e →
      ((mux_video_audio env).2.countP fun ev => isRmtree ev) = 0) := by
  obtain ⟨tmp, vd, ad, enc, ob⟩ := env
  cases vd <;> cases ad <;> cases enc <;>
    simp [mux_video_audio, isRmtree, List.countP_cons, List.countP_nil]

/-- Witness for the amended C2 theorem on a successful run. -/
theorem mux_cleanup_success_only_witness :
    ((⟨"/tmp/t", .ok (), .ok (), true, 9⟩ : MuxEnv).videoDownload =
      .ok ()) ∧
    ((⟨"/tmp/t", .ok (), .ok (), true, 9⟩ : MuxEnv).audioDownload =
      .ok ()) ∧
    ((⟨"/tmp/t", .ok (), .ok (), true, 9⟩ : MuxEnv).encoderOk = true) ∧
    (mux_video_audio ⟨"/tmp/t", .ok (), .ok (), true, 9⟩).2 =
      [.mkdtemp "/tmp/t", .fwrite ("/tmp/t" ++ "/in.mp4"),
       .fwrite ("/tmp/t" ++ "/in.mp3"), .fwrite ("/tmp/t" ++ "/out.mp4"),
       .rmtree "/tmp/t"] :=
  ⟨rfl, rfl, rfl,
   (mux_cleanup_success_only ⟨"/tmp/t", .ok (), .ok (), true, 9⟩).1
     rfl rfl rfl⟩

example : pyUUIDNormalize "00000000-0000-0000-0000-000000000000" =
    some "00000000-0000-0000-0000-000000000000" := by decide

example : pyUUIDNormalize "urn:uuid:{AbCdEf00-1111-2222-3333-444455556666}" =
    some "abcdef00-1111-2222-3333-444455556666" := by decide

example : pyUUIDNormalize "not-a-uuid" = none := by decide

example : build_storage_key "users/x" "videos" "mp4" "t" =
    "users/x/videos/t.mp4" := by decide

example : build_storage_key "a/../b" "videos" "mp4" "t" =
    "a//b/videos/t.mp4" := by decide

lemma isHex_ne_dot {c : Char} (h : isHexDigitChar c = true) : c ≠ '.' := by
  rintro rfl; exact absurd h (by decide)

lemma isHex_ne_slash {c : Char} (h : isHexDigitChar c = true) : c ≠ '/' := by
  rintro rfl; exact absurd h (by decide)

lemma hexLowerChar_cases (c : Char) :
    hexLowerChar c = c ∨ hexLowerChar c ∈ ['a', 'b', 'c', 'd', 'e', 'f'] := by
  unfold hexLowerChar
  split_ifs <;> simp

lemma hexLower_ne_dot {c : Char} (h : isHexDigitChar c = true) :
    hexLowerChar c ≠ '.' := by
  rcases hexLowerChar_cases c with hc | hc
  · rw [hc]; exact isHex_ne_dot h
  · intro hq; rw [hq] at hc; exact absurd hc (by decide)

lemma hexLower_ne_slash {c : Char} (h : isHexDigitChar c = true) :
    hexLowerChar c ≠ '/' := by
  rcases hexLowerChar_cases c with hc | hc
  · rw [hc]; exact isHex_ne_slash h
  · intro hq; rw [hq] at hc; exact absurd hc (by decide)

lemma pyUUIDNormalize_toList {s u : String} (h : pyUUIDNormalize s = some u) :
    ∃ cs : List Char, cs.length = 32 ∧ cs.all isHexDigitChar = true ∧
      u = hyphenate32 (cs.map hexLowerChar) := by
  simp only [pyUUIDNormalize] at h
  split at h
  · rename_i hcond
    exact ⟨_, hcond.1, hcond.2, (Option.some_injective _ h).symm⟩
  · cases h

lemma normalized_chars {s u : String} (h : pyUUIDNormalize s = some u) :
    (∀ c ∈ u.toList, c ≠ '.' ∧ c ≠ '/') ∧ u.toList ≠ [] := by
  obtain ⟨cs, hlen, hall, rfl⟩ := pyUUIDNormalize_toList h
  have hmem : ∀ c₀ ∈ cs, isHexDigitChar c₀ = true := List.all_eq_true.mp hall
  constructor
  · intro c hc
    have hc' : c = '-' ∨ ∃ c₀ ∈ cs, hexLowerChar c₀ = c := by
      simp only [hyphenate32, String.toList, List.mem_append,
        List.mem_cons] at hc
      rcases hc with hc | hc | hc | hc | hc | hc | hc | hc | hc
      · exact Or.inr (List.mem_map.mp ((List.take_subset _ _) hc))
      · exact Or.inl hc
      · exact Or.inr
          (List.mem_map.mp ((List.drop_subset _ _) ((List.take_subset _ _) hc)))
      · exact Or.inl hc
      · exact Or.inr
          (List.mem_map.mp ((List.drop_subset _ _) ((List.take_subset _ _) hc)))
      · exact Or.inl hc
      · exact Or.inr
          (List.mem_map.mp ((List.drop_subset _ _) ((List.take_subset _ _) hc)))
      · exact Or.inl hc
      · exact Or.inr (List.mem_map.mp ((List.drop_subset _ _) hc))
    rcases hc' with rfl | ⟨c₀, hc₀, rfl⟩
    · exact ⟨by decide, by decide⟩
    · exact ⟨hexLower_ne_dot (hmem c₀ hc₀), hexLower_ne_slash (hmem c₀ hc₀)⟩
  · simp [hyphenate32, String.toList]

lemma toList_append (a b : String) :
    (a ++ b).toList = a.toList ++ b.toList := rfl

lemma mk_toList (s : String) : String.mk s.toList = s := rfl

lemma resolve_ok_chars {uctx : Option UserContext} {p : String}
    (h : resolve_user_storage_prefix uctx = .ok p) :
    (∀ c ∈ p.toList, c ≠ '.') ∧ p.toList ≠ [] ∧
    (∀ c, p.toList.head? = some c → c ≠ '/') ∧
    (∀ c, p.toList.getLast? = some c → c ≠ '/') := by
  cases uctx with
  | none =>
    simp only [ resolve_user_storage_prefix, Except.ok.injEq] at h
    subst h
    exact ⟨by decide, by decide, by decide, by decide⟩
  | some uc =>
    simp only [ resolve_user_storage_prefix] at h
    cases hn : pyUUIDNormalize uc.id with
    | none => rw [hn] at h; cases h
    | some norm =>
      rw [hn] at h
      cases h
      obtain ⟨hchars, hne⟩ := normalized_chars hn
      refine ⟨?_, ?_, ?_, ?_⟩
      · intro c hc
        rw [toList_append] at hc
        rcases List.mem_append.mp hc with hc | hc
        · rw [show ("users/").toList = ['u', 's', 'e', 'r', 's', '/'] from
            rfl] at hc
          fin_cases hc <;> decide
        · exact (hchars c hc).1
      · rw [toList_append]
        simp
      · intro c hc
        rw [toList_append] at hc
        have : ("users/").toList = ['u', 's', 'e', 'r', 's', '/'] := rfl
        rw [this] at hc
        simp only [List.cons_append, List.head?_cons] at hc
        cases hc
        decide
      · intro c hc
        rw [toList_append, List.getLast?_append_of_ne_nil _ hne] at hc
        obtain ⟨hcne, hceq⟩ := List.mem_getLast?_eq_getLast hc
        exact (hchars c (hceq ▸ List.getLast_mem hcne)).2

lemma dropWhile_eq_self_of_head {p : Char → Bool} {l : List Char}
    (h : ∀ c, l.head? = some c → p c = false) : l.dropWhile p = l := by
  cases l with
  | nil => rfl
  | cons c rest =>
    exact List.dropWhile_cons_of_neg (by simp [h c rfl])

lemma stripSlashEnds_eq_self {l : List Char}
    (h1 : ∀ c, l.head? = some c → c ≠ '/')
    (h2 : ∀ c, l.getLast? = some c → c ≠ '/') :
    stripSlashEnds l = l := by
  unfold stripSlashEnds
  have e1 : (l.dropWhile fun c => c = '/') = l :=
    dropWhile_eq_self_of_head fun c hc => by simp [h1 c hc]
  rw [e1]
  have e2 : (l.reverse.dropWhile fun c => c = '/') = l.reverse :=
    dropWhile_eq_self_of_head fun c hc => by
      rw [List.head?_reverse] at hc
      simp [h2 c hc]
  rw [e2, List.reverse_reverse]

lemma removeDotDot_eq_self {l : List Char} (h : ∀ c ∈ l, c ≠ '.') :
    removeDotDot l = l := by
  induction l using removeDotDot.induct with
  | case1 rest ih => exact absurd rfl (h '.' (by simp))
  | case2 c rest hne ih =>
    simp only [removeDotDot]
    exact congrArg (c :: ·) (ih fun c' hc' => h c' (by simp [hc']))
  | case3 => rfl

lemma noDDRel_of_left {x y : Char} (h : x ≠ '.') : noDDRel x y :=
  fun hc => h hc.1

lemma noDDRel_of_right {x y : Char} (h : y ≠ '.') : noDDRel x y :=
  fun hc => h hc.2

lemma chain'_of_no_dot {l : List Char} (h : ∀ c ∈ l, c ≠ '.') :
    l.Chain' noDDRel := by
  induction l with
  | nil => simp
  | cons c rest ih =>
    rw [List.chain'_cons']
    refine ⟨fun y _ => noDDRel_of_left (h c (by simp)),
      ih fun c' hc' => h c' (by simp [hc'])⟩

lemma no_dotdot_of_chain' {l : List Char} (h : l.Chain' noDDRel) :
    ¬ ∃ s t, l = s ++ '.' :: '.' :: t := by
  rintro ⟨s, t, rfl⟩
  rw [List.chain'_append] at h
  have h2 := h.2.1
  rw [List.chain'_cons'] at h2
  exact (h2.1 '.' rfl) ⟨rfl, rfl⟩

lemma build_storage_key_eq {p : String} (cat ext tok : String)
    (hdot : ∀ c ∈ p.toList, c ≠ '.') (hne : p.toList ≠ [])
    (hh : ∀ c, p.toList.head? = some c → c ≠ '/')
    (hl : ∀ c, p.toList.getLast? = some c → c ≠ '/') :
    build_storage_key p cat ext tok =
      p ++ "/" ++ cat ++ "/" ++ tok ++ "." ++ ext := by
  have hpne : p ≠ "" := by
    intro hp
    exact hne (by rw [hp]; rfl)
  simp only [build_storage_key, stripSlashEnds_eq_self hh hl, mk_toList,
    if_neg hpne, removeDotDot_eq_self hdot]

/-- C8: keys produced through `resolve_user_storage_prefix` and
`build_storage_key` are rooted under `users/<normalized-uuid>/` for a
parsing user id and under `anonymous/` with no user context; a
non-parsing id is rejected with HTTP 400; and no `..` segment from any
input component survives into the final key. -/
theorem storage_key_scoping :
    (∀ (uc : UserContext) (u cat ext tok : String),
      pyUUIDNormalize uc.id = some u →
      resolve_user_storage_prefix (some uc) = .ok ("users/" ++ u) ∧
      ∃ rest, (build_storage_key ("users/" ++ u) cat ext tok).toList =
        ("users/" ++ u ++ "/").toList ++ rest) ∧
    (∀ cat ext tok : String,
      resolve_user_storage_prefix none = .ok "anonymous" ∧
      ∃ rest, (build_storage_key "anonymous" cat ext tok).toList =
        ("anonymous/").toList ++ rest) ∧
    (∀ uc : UserContext, pyUUIDNormalize uc.id = none →
      resolve_user_storage_prefix (some uc) =
        .error ⟨400, "user_context.id must be a valid UUID"⟩) ∧
    (∀ (uctx : Option UserContext) (p cat ext tok : String),
      resolve_user_storage_prefix uctx = .ok p →
      cat.toList.Chain' noDDRel →
      ext.toList.Chain' noDDRel →
      (∀ c, ext.toList.head? = some c → c ≠ '.') →
      (∀ c ∈ tok.toList, c ≠ '.') →
      ¬ ∃ s t, (build_storage_key p cat ext tok).toList =
        s ++ '.' :: '.' :: t) := by
  refine ⟨?_, ?_, ?_, ?_⟩
  · intro uc u cat ext tok hn
    have hres : resolve_user_storage_prefix (some uc) =
        .ok ("users/" ++ u) := by
      simp [ resolve_user_storage_prefix, hn]
    obtain ⟨hdot, hne, hh, hl⟩ := resolve_ok_chars hres
    refine ⟨hres, cat.toList ++ '/' :: (tok.toList ++ '.' :: ext.toList), ?_⟩
    rw [build_storage_key_eq cat ext tok hdot hne hh hl]
    simp [toList_append, List.append_assoc,
      show ("/" : String).toList = ['/'] from rfl,
      show ("." : String).toList = ['.'] from rfl]
  · intro cat ext tok
    have hres : resolve_user_storage_prefix none = .ok "anonymous" := rfl
    refine ⟨hres, cat.toList ++ '/' :: (tok.toList ++ '.' :: ext.toList), ?_⟩
    rw [build_storage_key_eq (p := "anonymous") cat ext tok (by decide)
      (by decide) (by decide) (by decide)]
    simp [toList_append, List.append_assoc,
      show ("/" : String).toList = ['/'] from rfl,
      show ("." : String).toList = ['.'] from rfl,
      show ("anonymous" : String).toList =
        ['a', 'n', 'o', 'n', 'y', 'm', 'o', 'u', 's'] from rfl,
      show ("anonymous/" : String).toList =
        ['a', 'n', 'o', 'n', 'y', 'm', 'o', 'u', 's', '/'] from rfl]
  · intro uc hn
    simp [ resolve_user_storage_prefix, hn]
  · intro uctx p cat ext tok hres hcat hext hexthead htok
    obtain ⟨hdot, hne, hh, hl⟩ := resolve_ok_chars hres
    rw [build_storage_key_eq cat ext tok hdot hne hh hl]
    apply no_dotdot_of_chain'
    have hform : (p ++ "/" ++ cat ++ "/" ++ tok ++ "." ++ ext).toList =
        p.toList ++ '/' :: (cat.toList ++ '/' ::
          (tok.toList ++ '.' :: ext.toList)) := by
      simp [toList_append, List.append_assoc,
        show ("/" : String).toList = ['/'] from rfl,
        show ("." : String).toList = ['.'] from rfl]
    rw [hform]
    apply List.chain'_append.mpr
    refine ⟨chain'_of_no_dot hdot, ?_, ?_⟩
    · rw [List.chain'_cons']
      refine ⟨fun y _ => noDDRel_of_left (by decide), ?_⟩
      apply List.chain'_append.mpr
      refine ⟨hcat, ?_, ?_⟩
      · rw [List.chain'_cons']
        refine ⟨fun y _ => noDDRel_of_left (by decide), ?_⟩
        apply List.chain'_append.mpr
        refine ⟨chain'_of_no_dot htok, ?_, ?_⟩
        · rw [List.chain'_cons']
          refine ⟨fun y hy => noDDRel_of_right
            (hexthead y (Option.mem_def.mp hy)), hext⟩
        · intro x hx y hy
          apply noDDRel_of_left
          obtain ⟨hne', heq⟩ := List.mem_getLast?_eq_getLast hx
          exact htok x (heq ▸ List.getLast_mem hne')
      · intro x hx y hy
        apply noDDRel_of_right
        have hy' : '/' = y := by simpa using hy
        rw [← hy']; decide
    · intro x hx y hy
      apply noDDRel_of_right
      have hy' : '/' = y := by simpa using hy
      rw [← hy']; decide

/-- Witness for C8 at the all-zero UUID, the repo's `videos`/`mp4`
category and extension, and a fixed `uuid4` token. -/
theorem storage_key_scoping_witness :
    (pyUUIDNormalize "00000000-0000-0000-0000-000000000000" =
      some "00000000-0000-0000-0000-000000000000") ∧
    ( resolve_user_storage_prefix
        (some ⟨"00000000-0000-0000-0000-000000000000", none, none⟩) =
      .ok ("users/" ++ "00000000-0000-0000-0000-000000000000") ∧
      ∃ rest, (build_storage_key
          ("users/" ++ "00000000-0000-0000-0000-000000000000") "videos"
          "mp4" "11111111-2222-3333-4444-555555555555").toList =
        ("users/" ++ "00000000-0000-0000-0000-000000000000" ++
          "/").toList ++ rest) ∧
    (pyUUIDNormalize "not-a-uuid" = none) ∧
    ( resolve_user_storage_prefix (some ⟨"not-a-uuid", none, none⟩) =
      .error ⟨400, "user_context.id must be a valid UUID"⟩) ∧
    (¬ ∃ s t, (build_storage_key "anonymous" "videos" "mp4"
        "11111111-2222-3333-4444-555555555555").toList =
      s ++ '.' :: '.' :: t) :=
  ⟨by decide,
   storage_key_scoping.1
     ⟨"00000000-0000-0000-0000-000000000000", none, none⟩
     "00000000-0000-0000-0000-000000000000" "videos" "mp4"
     "11111111-2222-3333-4444-555555555555" (by decide),
   by decide,
   storage_key_scoping.2.2.1 ⟨"not-a-uuid", none, none⟩ (by decide),
   storage_key_scoping.2.2.2 none "anonymous" "videos" "mp4"
     "11111111-2222-3333-4444-555555555555" rfl
     (chain'_of_no_dot (by decide)) (chain'_of_no_dot (by decide))
     (by intro c hc; cases hc; decide) (by decide)⟩

/-- C1: whenever the upload succeeds and the metadata insert raises, the
pipeline invokes the blob-store delete exactly once, with exactly the
uploaded key, and propagates the original insert error unmodified — for
every outcome of the delete itself. -/
theorem prompt_only_compensating_delete (env : OrchEnv)
    (req : JobPromptOnly) (pfx video_url url : String) (n : Nat) (e : PyErr)
    (hres : resolve_user_storage_prefix req.user_context = .ok pfx)
    (hmodel : pyOrStr req.model DEFAULT_MODEL ≠ "wan-video/wan-2.2-s2v")
    (hgen : env.genResult = .ok video_url)
    (hfetch : env.fetchResult = .ok n)
    (hup : env.uploadResult = .ok url)
    (hins : env.insertResult = .error e) :
    create_job_with_prompt env req =
      (.error e,
       [.upload (build_storage_key pfx "videos" "mp4" env.keyToken),
        .insert,
        .delete (build_storage_key pfx "videos" "mp4" env.keyToken)]) := by
  simp [create_job_with_prompt, hres, hmodel, hgen, hfetch, hup, hins]

/-- Witness for C1: anonymous user, default model, insert failing with a
concrete non-HTTP exception; the delete call outcome is a raised
`httpx` error, which does not alter the propagated error. -/
theorem prompt_only_compensating_delete_witness :
    ( resolve_user_storage_prefix none = .ok "anonymous") ∧
    (pyOrStr none DEFAULT_MODEL ≠ "wan-video/wan-2.2-s2v") ∧
    create_job_with_prompt
        ⟨.ok "http://vid", .ok 7, .ok "http://final",
         .error (.other "insert boom"), "tok", true, true⟩
        ⟨"http://img", "wave", 6, "768p", none, none⟩ =
      (.error (.other "insert boom"),
       [.upload (build_storage_key "anonymous" "videos" "mp4" "tok"),
        .insert,
        .delete (build_storage_key "anonymous" "videos" "mp4" "tok")]) :=
  ⟨rfl, by decide,
   prompt_only_compensating_delete
     ⟨.ok "http://vid", .ok 7, .ok "http://final",
      .error (.other "insert boom"), "tok", true, true⟩
     ⟨"http://img", "wave", 6, "768p", none, none⟩
     "anonymous" "http://vid" "http://final" 7 (.other "insert boom")
     rfl (by decide) rfl rfl rfl rfl⟩

/-- Consistency of the flat embedding with the step decomposition. -/
lemma build_model_payload_as_steps (model img pr : String) (sec : Int)
    (res : String) (au : Option String) :
    build_model_payload model img pr sec res au =
      match get_model_config model with
      | .error e => .error e
      | .ok c => .ok ⟨mapAudioStep c.param_mapping au
          (mapResolutionStep model c.param_mapping res
            (mapSecondsStep model c.param_mapping sec
              (mapPromptStep c.param_mapping pr
                (mapImageStep c.param_mapping img c.default_params))))⟩ := by
  unfold build_model_payload mapImageStep mapPromptStep mapSecondsStep
    mapResolutionStep mapAudioStep
  cases get_model_config model <;> rfl

lemma writeRef_dyn_registry (h : Heap) (n : Nat) (k : String) (v : Value) :
    (writeRef h (.dyn n) k v).registry = h.registry := rfl

lemma readRef_writeRef_same (h : Heap) (r : DictRef) (k : String)
    (v : Value) : readRef (writeRef h r k v) r = dset (readRef h r) k v := by
  cases r <;> simp [readRef, writeRef]

lemma setdefaultRef_dyn_registry (h : Heap) (n : Nat) (k : String)
    (v : Value) : (setdefaultRef h (.dyn n) k v).registry = h.registry := by
  unfold setdefaultRef
  split <;> rfl

lemma readRef_setdefaultRef_same (h : Heap) (r : DictRef) (k : String)
    (v : Value) :
    readRef (setdefaultRef h r k v) r = dsetdefault (readRef h r) k v := by
  unfold setdefaultRef dsetdefault
  cases dget (readRef h r) k <;> simp [readRef_writeRef_same]

lemma mapImageStepH_registry (pm : List (String × String)) (img : String)
    (h : Heap) (n : Nat) :
    (mapImageStepH pm img h (.dyn n)).registry = h.registry := by
  unfold mapImageStepH
  cases alget pm "image_url" <;> rfl

lemma mapImageStepH_contents (pm : List (String × String)) (img : String)
    (h : Heap) (r : DictRef) :
    readRef (mapImageStepH pm img h r) r =
      mapImageStep pm img (readRef h r) := by
  unfold mapImageStepH mapImageStep
  cases alget pm "image_url" <;> simp [readRef_writeRef_same]

lemma mapPromptStepH_registry (pm : List (String × String)) (pr : String)
    (h : Heap) (n : Nat) :
    (mapPromptStepH pm pr h (.dyn n)).registry = h.registry := by
  unfold mapPromptStepH
  cases alget pm "prompt" <;> rfl

lemma mapPromptStepH_contents (pm : List (String × String)) (pr : String)
    (h : Heap) (r : DictRef) :
    readRef (mapPromptStepH pm pr h r) r =
      mapPromptStep pm pr (readRef h r) := by
  unfold mapPromptStepH mapPromptStep
  cases alget pm "prompt" <;> simp [readRef_writeRef_same]

lemma mapSecondsStepH_registry (model : String)
    (pm : List (String × String)) (sec : Int) (h : Heap) (n : Nat) :
    (mapSecondsStepH model pm sec h (.dyn n)).registry = h.registry := by
  unfold mapSecondsStepH
  cases alget pm "seconds" with
  | none => rfl
  | some pk => split_ifs <;> rfl

lemma mapSecondsStepH_contents (model : String)
    (pm : List (String × String)) (sec : Int) (h : Heap) (r : DictRef) :
    readRef (mapSecondsStepH model pm sec h r) r =
      mapSecondsStep model pm sec (readRef h r) := by
  unfold mapSecondsStepH mapSecondsStep
  cases alget pm "seconds" with
  | none => rfl
  | some pk => split_ifs <;> simp [readRef_writeRef_same]

lemma mapResolutionStepH_registry (model : String)
    (pm : List (String × String)) (res : String) (h : Heap) (n : Nat) :
    (mapResolutionStepH model pm res h (.dyn n)).registry = h.registry := by
  unfold mapResolutionStepH
  cases alget pm "resolution" with
  | none => rfl
  | some pk =>
    split_ifs <;>
      simp [writeRef_dyn_registry, setdefaultRef_dyn_registry, writeRef]

lemma mapResolutionStepH_contents (model : String)
    (pm : List (String × String)) (res : String) (h : Heap) (r : DictRef) :
    readRef (mapResolutionStepH model pm res h r) r =
      mapResolutionStep model pm res (readRef h r) := by
  unfold mapResolutionStepH mapResolutionStep
  cases alget pm "resolution" with
  | none => rfl
  | some pk =>
    split_ifs <;>
      simp [readRef_writeRef_same, readRef_setdefaultRef_same]

lemma mapAudioStepH_registry (pm : List (String × String))
    (au : Option String) (h : Heap) (n : Nat) :
    (mapAudioStepH pm au h (.dyn n)).registry = h.registry := by
  unfold mapAudioStepH
  cases alget pm "audio_url" with
  | none => rfl
  | some pk =>
    cases au with
    | none => rfl
    | some a => by_cases ha : a = "" <;> simp [ha, writeRef_dyn_registry]

lemma mapAudioStepH_contents (pm : List (String × String))
    (au : Option String) (h : Heap) (r : DictRef) :
    readRef (mapAudioStepH pm au h r) r =
      mapAudioStep pm au (readRef h r) := by
  unfold mapAudioStepH mapAudioStep
  cases alget pm "audio_url" with
  | none => rfl
  | some pk =>
    cases au with
    | none => rfl
    | some a => by_cases ha : a = "" <;> simp [ha, readRef_writeRef_same]

lemma build_model_payloadH_spec (h : Heap) (model img pr : String)
    (sec : Int) (res : String) (au : Option String) (c : ModelConfig)
    (hcfg : get_model_config model = .ok c) :
    ∃ h', build_model_payloadH h model img pr sec res au =
        .ok (h', .dyn h.next) ∧
      h'.registry = h.registry ∧
      readRef h' (.dyn h.next) = mapAudioStep c.param_mapping au
        (mapResolutionStep model c.param_mapping res
          (mapSecondsStep model c.param_mapping sec
            (mapPromptStep c.param_mapping pr
              (mapImageStep c.param_mapping img (h.registry model))))) := by
  unfold build_model_payloadH
  rw [hcfg]
  refine ⟨_, rfl, ?_, ?_⟩
  · simp only [pyDictCopy, mapAudioStepH_registry,
      mapResolutionStepH_registry, mapSecondsStepH_registry,
      mapPromptStepH_registry, mapImageStepH_registry]
  · simp only [pyDictCopy, mapAudioStepH_contents,
      mapResolutionStepH_contents, mapSecondsStepH_contents,
      mapPromptStepH_contents, mapImageStepH_contents]
    simp [readRef]

/-- C10: `build_model_payload` never mutates the registry — the payload
is built by mutating a fresh `.copy()` of the model's `default_params`,
so every registry dict reads the same before and after the call, and a
repeated call with identical inputs (from any heap whose registry
agrees) produces an identical payload dict. -/
theorem build_payload_registry_frame (h : Heap) (model img pr : String)
    (sec : Int) (res : String) (au : Option String) (h' : Heap)
    (r : DictRef)
    (hb : build_model_payloadH h model img pr sec res au = .ok (h', r)) :
    (∀ m, h'.registry m = h.registry m) ∧
    (∀ (h₂ h₂' : Heap) (r₂ : DictRef),
      (∀ m, h₂.registry m = h.registry m) →
      build_model_payloadH h₂ model img pr sec res au = .ok (h₂', r₂) →
      readRef h₂' r₂ = readRef h' r) := by
  cases hcfg : get_model_config model with
  | error e =>
    unfold build_model_payloadH at hb
    rw [hcfg] at hb
    cases hb
  | ok c =>
    obtain ⟨hA, hbA, hregA, hcontA⟩ :=
      build_model_payloadH_spec h model img pr sec res au c hcfg
    rw [hbA] at hb
    injection hb with hp
    have h1 : hA = h' := congrArg Prod.fst hp
    have h2 : DictRef.dyn h.next = r := congrArg Prod.snd hp
    subst h1
    subst h2
    constructor
    · intro m
      rw [hregA]
    · intro h₂ h₂' r₂ hreg2 hb₂
      obtain ⟨hA₂, hbA₂, hregA₂, hcontA₂⟩ :=
        build_model_payloadH_spec h₂ model img pr sec res au c hcfg
      rw [hbA₂] at hb₂
      injection hb₂ with hp₂
      have h1₂ : hA₂ = h₂' := congrArg Prod.fst hp₂
      have h2₂ : DictRef.dyn h₂.next = r₂ := congrArg Prod.snd hp₂
      subst h1₂
      subst h2₂
      rw [hcontA₂, hcontA, hreg2 model]

/-- Witness for C10 at the initial store and concrete inputs. -/
theorem build_payload_registry_frame_witness :
    ∃ h' r, build_model_payloadH registryHeap0 "minimax/hailuo-02" "i" "p"
        6 "768p" none = .ok (h', r) ∧
      (∀ m, h'.registry m = registryHeap0.registry m) :=
  ⟨_, _, rfl,
   (build_payload_registry_frame registryHeap0 "minimax/hailuo-02" "i" "p"
     6 "768p" none _ _ rfl).1⟩
